import Mathlib

/-!
Verification of the blind-test-generator pipeline: shallow embedding of the
catalog client (itunes_api.py), audio assembler (audio_processor.py), video
renderer (video_generator.py), upload client (youtube_api.py) and
orchestrator (blind_test_generator.py), with theorems settling the stated
behavioural claims.
-/

namespace BlindTest

/-- Track descriptor, embedding the pydantic `Track` model of
src/itunes_api.py (lines 6-14). `duration` is in seconds. -/
structure Track where
  track_name : String
  artist_name : String
  album_name : String
  preview_url : String
  artwork_url : String
  genre : String
  track_id : Nat
  duration : Nat
deriving DecidableEq, Repr

/-- One raw result dictionary of the catalog search response, with the keys
`search_music` reads; `none` models an absent key. -/
structure RawResult where
  trackName : Option String
  artistName : Option String
  collectionName : Option String
  previewUrl : Option String
  artworkUrl100 : Option String
  primaryGenreName : Option String
  trackId : Option Nat
  trackTimeMillis : Option Nat
deriving DecidableEq, Repr

/-- Python truthiness of `track_data.get(key)` for a string-valued key:
present and non-empty. -/
def truthy : Option String → Bool
  | some s => !(s = "")
  | none => false

/-- The `Track(...)` construction of `search_music` (src/itunes_api.py lines
61-70): every `.get` default of the source is kept. -/
def rawToTrack (d : RawResult) : Track :=
  { track_name := d.trackName.getD "Unknown"
    artist_name := d.artistName.getD "Unknown Artist"
    album_name := d.collectionName.getD "Unknown Album"
    preview_url := d.previewUrl.getD ""
    artwork_url := (d.artworkUrl100.getD "").replace "100x100" "600x600"
    genre := d.primaryGenreName.getD "Unknown"
    track_id := d.trackId.getD 0
    duration := (d.trackTimeMillis.getD 30000) / 1000 }

/-- Embeds `iTunesAPI.search_music` (src/itunes_api.py lines 24-80) applied to
the decoded `results` array of the response: keep results having a truthy
preview URL, track name and artist name, and convert each to a `Track`. -/
def search_music (results : List RawResult) : List Track :=
  (results.filter
    (fun d => truthy d.previewUrl && truthy d.trackName && truthy d.artistName)).map
    rawToTrack

/-- The deduplication loop of `get_random_tracks` (src/itunes_api.py lines
114-118): `seen` is the key set of the `unique_tracks` dict.  A track enters
iff its `track_id` is truthy (non-zero) and not seen yet; Python dicts keep
insertion order, so the first occurrence wins and order is preserved. -/
def dedupAux : List Track → List Nat → List Track
  | [], _ => []
  | t :: rest, seen =>
    if t.track_id ≠ 0 ∧ t.track_id ∉ seen then
      t :: dedupAux rest (t.track_id :: seen)
    else
      dedupAux rest seen

/-- `track_list = list(unique_tracks.values())` of src/itunes_api.py line 120. -/
def unique_track_list (all_tracks : List Track) : List Track :=
  dedupAux all_tracks []

/-- Embeds `random.sample(l, k)` (selection without replacement, k ≤ len(l) at
every call site): `coins` is the stream of random draws; each step picks the
index `coins k % remaining` and removes the chosen element. -/
def random_sample (coins : Nat → Nat) : Nat → List Track → List Track
  | 0, _ => []
  | _ + 1, [] => []
  | k + 1, x :: xs =>
    (x :: xs).getD (coins k % (x :: xs).length) x ::
      random_sample coins k ((x :: xs).eraseIdx (coins k % (x :: xs).length))

/-- The fallback condition of `get_random_tracks` (src/itunes_api.py line 108):
`if len(all_tracks) < count`, evaluated on the raw pooled genre-search results,
before deduplication. -/
def usedFallback (genreResults : List Track) (count : Nat) : Bool :=
  decide (genreResults.length < count)

/-- The deduplicated `track_list` of `get_random_tracks` (src/itunes_api.py
lines 100-120): the genre-search results, extended by the fallback-search
results iff `len(all_tracks) < count` held on the raw genre pool, then
deduplicated by identifier. -/
def candidate_pool (genreResults fallbackResults : List Track) (count : Nat) :
    List Track :=
  unique_track_list
    (if usedFallback genreResults count then genreResults ++ fallbackResults
     else genreResults)

/-- Embeds `iTunesAPI.get_random_tracks` (src/itunes_api.py lines 82-123).
The network results of the genre searches and of the popular-term fallback
searches are inputs (`genreResults`, `fallbackResults`); `coins` drives
`random.sample`.  The result is `random.sample(track_list, min(len(track_list),
count))` over the deduplicated candidate pool. -/
def get_random_tracks (genreResults fallbackResults : List Track) (count : Nat)
    (coins : Nat → Nat) : List Track :=
  random_sample coins
    (min (candidate_pool genreResults fallbackResults count).length count)
    (candidate_pool genreResults fallbackResults count)

/-! Audio assembler: src/audio_processor.py -/

/-- Python `int()` on a rational: truncation toward zero. -/
def pyInt (q : ℚ) : Int :=
  if 0 ≤ q then Int.floor q else Int.ceil q

/-- `random.uniform(a, b)` with the random draw `r ∈ [0, 1]` made explicit:
the documented result is `a + r * (b - a)`. -/
def uniform (a b r : ℚ) : ℚ := a + r * (b - a)

/-- The start-offset choice of `process_audio_snippet` (src/audio_processor.py
lines 65-70): `audio_length = len(audio) / 1000` (true division), and if
`audio_length > duration + 20` the offset is `random.uniform(10, audio_length -
duration - 10)`, else `0`.  `len_ms` is the source length in milliseconds. -/
def chooseStart (len_ms duration : Nat) (r : ℚ) : ℚ :=
  let audio_length : ℚ := (len_ms : ℚ) / 1000
  if (duration : ℚ) + 20 < audio_length then
    uniform 10 (audio_length - (duration : ℚ) - 10) r
  else 0

/-- Length in milliseconds of the slice `audio[a:b]` of a source of `len_ms`
milliseconds, for nonnegative slice indices: Python slicing clamps both ends
to the sequence length. -/
def sliceLen (len_ms a b : Nat) : Nat :=
  min b len_ms - min a len_ms

/-- Length in milliseconds of the snippet returned by `process_audio_snippet`
(src/audio_processor.py lines 72-79): `start_ms = int(start_time * 1000)`,
`end_ms = int((start_time + duration) * 1000)`, `snippet = audio[start_ms:end_ms]`.
The subsequent `fade_in`/`fade_out` calls reshape amplitude only and keep the
length. -/
def snippet_len_ms (len_ms duration : Nat) (r : ℚ) : Nat :=
  let start_time := chooseStart len_ms duration r
  let start_ms := (pyInt (start_time * 1000)).toNat
  let end_ms := (pyInt ((start_time + (duration : ℚ)) * 1000)).toNat
  sliceLen len_ms start_ms end_ms

/-- Per-track outcome of the download-then-process pipeline inside
`create_blind_test_audio`: `download_audio` returned False, or
`process_audio_snippet` returned None, or a snippet was produced. -/
inductive TrackOutcome where
  | downloadFail
  | processFail
  | ok
deriving DecidableEq, Repr

/-- Whether the track survived both download and processing. -/
def TrackOutcome.isOk : TrackOutcome → Bool
  | .ok => true
  | _ => false

/-- One element of the `audio_segments` list of `create_blind_test_audio`:
a silence from `create_silence` (carrying its length in milliseconds) or the
processed snippet of one input track. -/
inductive Seg where
  | silence (ms : Nat)
  | snippet (t : Track)
deriving DecidableEq, Repr

/-- Silence recogniser. -/
def Seg.isSilence : Seg → Bool
  | .silence _ => true
  | .snippet _ => false

/-- Extracts the track of a snippet segment. -/
def Seg.snippetTrack : Seg → Option Track
  | .silence _ => none
  | .snippet t => some t

/-- The `for i, track_info in enumerate(tracks_info)` loop of
`create_blind_test_audio` (src/audio_processor.py lines 113-144), with the
download/processing outcome of each track given alongside it.  On success the
loop appends the intro silence (only when `i == 0`), the pause silence and the
snippet, and records the track; on any failure it appends nothing. -/
def assembleAux (intro_duration pause_duration : Nat) :
    Nat → List (Track × TrackOutcome) → List Seg × List Track
  | _, [] => ([], [])
  | i, (t, o) :: rest =>
    let r := assembleAux intro_duration pause_duration (i + 1) rest
    if o.isOk then
      ((if i = 0 then [Seg.silence (intro_duration * 1000)] else []) ++
        Seg.silence (pause_duration * 1000) :: Seg.snippet t :: r.1,
       t :: r.2)
    else r

/-- Embeds `AudioProcessor.create_blind_test_audio` (src/audio_processor.py
lines 91-153): run the per-track loop, then either return the collected
segments (their concatenation is the complete audio) with the processed-track
list, or `(AudioSegment.empty(), [])` when no segment was created. -/
def create_blind_test_audio (tracks_info : List (Track × TrackOutcome))
    (snippet_duration pause_duration intro_duration : Nat) :
    List Seg × List Track :=
  let r := assembleAux intro_duration pause_duration 0 tracks_info
  if r.1 = [] then ([], []) else r

/-! Video renderer: src/video_generator.py -/

/-- Durations (seconds, exact rationals) of the clips `generate_blind_test_video`
concatenates (src/video_generator.py lines 307-342): the intro clip, then per
track a pre-snippet countdown clip of `pause_duration`, a music-playing clip of
`snippet_duration - answer_duration` and an answer clip of `answer_duration`,
then the outro clip. -/
def clip_durations (tracks_info : List Track)
    (snippet_duration pause_duration intro_duration outro_duration
      answer_duration : ℚ) : List ℚ :=
  intro_duration ::
    (tracks_info.map
      (fun _ => [pause_duration, snippet_duration - answer_duration,
                 answer_duration])).flatten
    ++ [outro_duration]

/-- `concatenate_videoclips`: the duration of the concatenation is the sum of
the clip durations. -/
def final_video_duration (tracks_info : List Track)
    (snippet_duration pause_duration intro_duration outro_duration
      answer_duration : ℚ) : ℚ :=
  (clip_durations tracks_info snippet_duration pause_duration intro_duration
    outro_duration answer_duration).sum

/-- `audio.subclip(0, min(audio.duration, final_video.duration))`
(src/video_generator.py line 345): the attached audio's duration. -/
def final_audio_duration (audio_len video_len : ℚ) : ℚ :=
  min audio_len video_len

/-! Upload client: src/youtube_api.py -/

/-- Python exception kinds reaching the retry loop: the nine kinds of
`RETRIABLE_EXCEPTIONS` (src/youtube_api.py lines 18-28), plus any other
exception class, carried by name. -/
inductive PyExc where
  | httpLib2Error
  | ioError
  | notConnected
  | incompleteRead
  | improperConnectionState
  | cannotSendRequest
  | cannotSendHeader
  | responseNotReady
  | badStatusLine
  | other (name : String)
deriving DecidableEq, Repr

/-- Membership in the `RETRIABLE_EXCEPTIONS` tuple. -/
def isRetriableException : PyExc → Bool
  | .other _ => false
  | _ => true

/-- `MAX_RETRIES` (src/youtube_api.py line 16). -/
def MAX_RETRIES : Nat := 10

/-- `RETRIABLE_STATUS_CODES` (src/youtube_api.py line 30). -/
def RETRIABLE_STATUS_CODES : List Nat := [500, 502, 503, 504]

/-- Outcome of one `insert_request.next_chunk()` call inside
`resumable_upload`: a response (with or without an `id` key), a progress step
returning `(status, None)`, an `HttpError` with a status, or another
exception. -/
inductive ChunkOutcome where
  | ok (hasId : Bool)
  | progress
  | raiseHttp (status : Nat)
  | raiseExc (e : PyExc)
deriving DecidableEq, Repr

/-- Whether a chunk outcome is one of the retriable failures of
`resumable_upload`: an `HttpError` whose status is in
`RETRIABLE_STATUS_CODES`, or an exception in `RETRIABLE_EXCEPTIONS`. -/
def retriableFailure : ChunkOutcome → Bool
  | .raiseHttp status => decide (status ∈ RETRIABLE_STATUS_CODES)
  | .raiseExc e => isRetriableException e
  | _ => false

/-- How `resumable_upload` terminates: loop exit with a response (uploaded, or
an unexpected response without `id`), the `retry > MAX_RETRIES` break, a
propagated exception, or the chunk-outcome stream ran out with the loop still
going. -/
inductive UploadResult where
  | done (hasId : Bool)
  | failedMaxRetries
  | raisedHttp (status : Nat)
  | raisedExc (e : PyExc)
  | outOfChunks
deriving DecidableEq, Repr

/-- Terminal record of one `resumable_upload` call: its result and the list of
backoff sleeps performed, each recorded by its exponent `e` (the sleep is
`random.random() * 2 ^ e` seconds). -/
structure UploadTrace where
  result : UploadResult
  sleeps : List Nat
deriving DecidableEq, Repr

/-- The `while response is None` loop of `resumable_upload`
(src/youtube_api.py lines 80-117): `retry` is the retry counter, `sleeps` the
exponents of the backoff sleeps done so far.  A retriable failure sets
`error`; then `retry += 1`, the loop breaks into FAILED when
`retry > MAX_RETRIES`, and otherwise sleeps `random.random() * 2 ** retry`
seconds and continues.  A non-retriable `HttpError` is re-raised; any other
non-retriable exception is not caught at all. -/
def uploadLoop : List ChunkOutcome → Nat → List Nat → UploadTrace
  | [], _, sleeps => ⟨.outOfChunks, sleeps⟩
  | c :: rest, retry, sleeps =>
    match c with
    | .ok hasId => ⟨.done hasId, sleeps⟩
    | .progress => uploadLoop rest retry sleeps
    | .raiseHttp status =>
      if status ∈ RETRIABLE_STATUS_CODES then
        if MAX_RETRIES < retry + 1 then ⟨.failedMaxRetries, sleeps⟩
        else uploadLoop rest (retry + 1) (sleeps ++ [retry + 1])
      else ⟨.raisedHttp status, sleeps⟩
    | .raiseExc e =>
      if isRetriableException e then
        if MAX_RETRIES < retry + 1 then ⟨.failedMaxRetries, sleeps⟩
        else uploadLoop rest (retry + 1) (sleeps ++ [retry + 1])
      else ⟨.raisedExc e, sleeps⟩

/-- Embeds `YouTubeAPI.resumable_upload` (src/youtube_api.py lines 80-117)
driven by the given stream of chunk outcomes. -/
def resumable_upload (chunks : List ChunkOutcome) : UploadTrace :=
  uploadLoop chunks 0 []

/-! Orchestrator: src/blind_test_generator.py -/

/-- The duration estimate of `main` (src/blind_test_generator.py line 32):
`num_tracks * (snippet_duration + pause_duration) + intro_duration +
outro_duration`.  Arguments are Python ints. -/
def estimated_video_duration (num_tracks snippet_duration pause_duration
    intro_duration outro_duration : Int) : Int :=
  num_tracks * (snippet_duration + pause_duration) + intro_duration +
    outro_duration

/-- The confirmation branch of `main` (src/blind_test_generator.py lines
34-38): the warning and the `input(...)` prompt run iff the estimate exceeds
60. -/
def confirmation_prompted (num_tracks snippet_duration pause_duration
    intro_duration outro_duration : Int) : Bool :=
  decide (60 < estimated_video_duration num_tracks snippet_duration
    pause_duration intro_duration outro_duration)

/-- The upload step of `main` (src/blind_test_generator.py lines 117-133),
reached when video generation succeeded and `--upload` is set.  The step is
wrapped in `try/except Exception`: an error propagating out of the upload
client is caught and logged, and control falls through to `return True` on
line 133.  First component: `main`'s return value; second: the upload
client's outcome. -/
def main_upload_step (chunks : List ChunkOutcome) : Bool × UploadResult :=
  (true, (resumable_upload chunks).result)

/-! Auxiliary definitions used by the statements below -/

/-- Whether the first input track of the assembly loop survives download and
processing (`False` for an empty input list). -/
def firstOk : List (Track × TrackOutcome) → Bool
  | [] => false
  | x :: _ => x.2.isOk

/-- Concrete track descriptors reused by concrete instances below. -/
def sampleTrackA : Track :=
  ⟨"Song A", "Artist A", "Album A", "http://a/p.m4a", "http://a/art.jpg", "pop", 1, 30⟩

def sampleTrackB : Track :=
  ⟨"Song B", "Artist B", "Album B", "http://b/p.m4a", "http://b/art.jpg", "rock", 2, 30⟩

def sampleTrackC : Track :=
  ⟨"Song C", "Artist C", "Album C", "http://c/p.m4a", "http://c/art.jpg", "jazz", 3, 30⟩

/-- A raw catalog result that passes the `search_music` filter but lacks a
`trackId`. -/
def rawMissingId : RawResult :=
  ⟨some "Song", some "Artist", none, some "http://p.m4a", none, none, none, none⟩

/-! Helper lemmas -/

/-- `random.sample` returns exactly `min k (len l)` elements. -/
theorem random_sample_length (coins : Nat → Nat) :
    ∀ (k : Nat) (l : List Track), (random_sample coins k l).length = min k l.length := by
  intro k
  induction k with
  | zero => intro l; simp [random_sample]
  | succ k ih =>
    intro l
    match l with
    | [] => simp [random_sample]
    | x :: xs =>
      have hlt : coins k % (xs.length + 1) < xs.length + 1 :=
        Nat.mod_lt _ (Nat.succ_pos _)
      simp only [random_sample, List.length_cons]
      rw [ih, List.length_eraseIdx]
      simp only [List.length_cons]
      rw [if_pos hlt]
      omega

/-- Every sampled element comes from the input list. -/
theorem random_sample_subset (coins : Nat → Nat) :
    ∀ (k : Nat) (l : List Track), ∀ t ∈ random_sample coins k l, t ∈ l := by
  intro k
  induction k with
  | zero => intro l t ht; simp [random_sample] at ht
  | succ k ih =>
    intro l t ht
    match l with
    | [] => simp [random_sample] at ht
    | x :: xs =>
      simp only [random_sample, List.mem_cons] at ht
      rcases ht with h | h
      · by_cases hlt : coins k % (x :: xs).length < (x :: xs).length
        · rw [List.getD_eq_getElem _ _ hlt] at h
          exact h ▸ List.getElem_mem hlt
        · rw [List.getD_eq_default _ _ (Nat.le_of_not_lt hlt)] at h
          exact h ▸ List.mem_cons_self x xs
      · exact ((x :: xs).eraseIdx_sublist _).subset (ih _ t h)

/-- Deduplication never lets a track with identifier 0 through: the Python
condition `if track.track_id and ...` treats 0 as falsy. -/
theorem dedupAux_id_ne_zero :
    ∀ (l : List Track) (seen : List Nat), ∀ t ∈ dedupAux l seen, t.track_id ≠ 0 := by
  intro l
  induction l with
  | nil => intro seen t ht; simp [dedupAux] at ht
  | cons x xs ih =>
    intro seen t ht
    simp only [dedupAux] at ht
    by_cases hc : x.track_id ≠ 0 ∧ x.track_id ∉ seen
    · rw [if_pos hc] at ht
      rcases List.mem_cons.mp ht with h | h
      · exact h ▸ hc.1
      · exact ih _ t h
    · rw [if_neg hc] at ht
      exact ih _ t ht

/-! Claims about the catalog client -/

/-- C3: for every pool and requested count, `get_random_tracks` returns a
random sample (via the `random.sample` model) of exactly
`min(pool size, count)` tracks drawn from the unique-by-identifier pool; in
particular, when the pool has fewer unique entries than `count` it returns
exactly the pool size, a valid non-error outcome (the embedded function is
total and returns normally). -/
theorem c3_sample_size (genreResults fallbackResults : List Track) (count : Nat)
    (coins : Nat → Nat) :
    (get_random_tracks genreResults fallbackResults count coins).length =
      min (candidate_pool genreResults fallbackResults count).length count ∧
    (∀ t ∈ get_random_tracks genreResults fallbackResults count coins,
      t ∈ candidate_pool genreResults fallbackResults count) ∧
    ((candidate_pool genreResults fallbackResults count).length < count →
      (get_random_tracks genreResults fallbackResults count coins).length =
        (candidate_pool genreResults fallbackResults count).length) := by
  have hlen : (get_random_tracks genreResults fallbackResults count coins).length =
      min (candidate_pool genreResults fallbackResults count).length count := by
    unfold get_random_tracks
    rw [random_sample_length]
    omega
  refine ⟨hlen, ?_, ?_⟩
  · intro t ht
    exact random_sample_subset coins _ _ t ht
  · intro h
    omega

/-- C3 witness: a pool with one unique track and `count = 3` yields exactly
one track, and the sampled track lies in the pool. -/
theorem c3_sample_size_witness :
    ((candidate_pool [sampleTrackA] [] 3).length < 3 ∧
      (get_random_tracks [sampleTrackA] [] 3 (fun _ => 0)).length =
        (candidate_pool [sampleTrackA] [] 3).length) ∧
    sampleTrackA ∈ candidate_pool [sampleTrackA] [] 3 :=
  ⟨⟨by decide, (c3_sample_size [sampleTrackA] [] 3 (fun _ => 0)).2.2 (by decide)⟩,
    (c3_sample_size [sampleTrackA] [] 3 (fun _ => 0)).2.1 sampleTrackA (by decide)⟩

/-- C8 counterexample: two genre-search results sharing identifier 1, with
`count = 2`: the unique-by-identifier pool has 1 < 2 entries, yet the code's
fallback condition (`len(all_tracks) < count` on the raw pool) is false, so no
fallback search is issued and the fallback results stay out of the pool —
refuting the claimed "if and only if the pooled unique-by-identifier result
set ... is smaller than the requested count". -/
theorem c8_counterexample :
    (unique_track_list [sampleTrackA, sampleTrackA]).length < 2 ∧
    usedFallback [sampleTrackA, sampleTrackA] 2 = false ∧
    candidate_pool [sampleTrackA, sampleTrackA] [sampleTrackB] 2 = [sampleTrackA] := by
  decide

/-- C8 amended: the fallback searches are issued if and only if the raw pooled
genre-search result list (duplicates included, before deduplication) is
smaller than the requested count; when issued their results join the pool
before deduplication, otherwise the pool is the deduplicated genre results
alone. -/
theorem c8_fallback_condition (genreResults fallbackResults : List Track)
    (count : Nat) :
    (usedFallback genreResults count = true ↔ genreResults.length < count) ∧
    (genreResults.length < count →
      candidate_pool genreResults fallbackResults count =
        unique_track_list (genreResults ++ fallbackResults)) ∧
    (¬ genreResults.length < count →
      candidate_pool genreResults fallbackResults count =
        unique_track_list genreResults) := by
  refine ⟨by simp [usedFallback], fun h => ?_, fun h => ?_⟩
  · simp [candidate_pool, usedFallback, h]
  · simp [candidate_pool, usedFallback, h]

/-- C8 witness: both branches of the amended fallback condition at concrete
inputs. -/
theorem c8_fallback_condition_witness :
    candidate_pool [sampleTrackA] [sampleTrackB] 2 =
      unique_track_list ([sampleTrackA] ++ [sampleTrackB]) ∧
    candidate_pool [sampleTrackA] [] 1 = unique_track_list [sampleTrackA] :=
  ⟨(c8_fallback_condition [sampleTrackA] [sampleTrackB] 2).2.1 (by decide),
    (c8_fallback_condition [sampleTrackA] [] 1).2.2 (by decide)⟩

/-- C9: every track returned by `get_random_tracks` has a non-zero identifier
(tracks whose `track_id` is 0 are silently dropped by the deduplication
condition), even though `search_music` itself can return a track with
identifier 0 (the default when the result lacks a `trackId`). -/
theorem c9_nonzero_id (genreResults fallbackResults : List Track) (count : Nat)
    (coins : Nat → Nat) :
    (∀ t ∈ get_random_tracks genreResults fallbackResults count coins,
      t.track_id ≠ 0) ∧
    (∃ results : List RawResult, ∃ t ∈ search_music results, t.track_id = 0) := by
  constructor
  · intro t ht
    have hpool := random_sample_subset coins _ _ t ht
    exact dedupAux_id_ne_zero _ _ t hpool
  · refine ⟨[rawMissingId], rawToTrack rawMissingId, ?_, rfl⟩
    simp [search_music, rawMissingId, truthy]

/-- C9 witness: the non-zero-identifier guarantee applied to a concrete
returned track. -/
theorem c9_nonzero_id_witness : sampleTrackA.track_id ≠ 0 :=
  (c9_nonzero_id [sampleTrackA] [] 1 (fun _ => 0)).1 sampleTrackA (by decide)

/-! Claims about the orchestrator's duration estimate -/

/-- C6: the orchestrator's estimated total duration equals
`num_tracks * (snippet_duration + pause_duration) + intro_duration +
outro_duration`, and the interactive confirmation prompt is triggered exactly
when the estimate exceeds 60 seconds; at
`num_tracks=3, snippet=10, pause=2, intro=1, outro=1` the estimate is 38 and
no prompt occurs, and at `num_tracks=6` it is 74 and the prompt triggers. -/
theorem c6_estimate_and_prompt :
    (∀ n s p i o : Int,
      estimated_video_duration n s p i o = n * (s + p) + i + o ∧
      (confirmation_prompted n s p i o = true ↔
        60 < estimated_video_duration n s p i o)) ∧
    estimated_video_duration 3 10 2 1 1 = 38 ∧
    confirmation_prompted 3 10 2 1 1 = false ∧
    estimated_video_duration 6 10 2 1 1 = 74 ∧
    confirmation_prompted 6 10 2 1 1 = true := by
  refine ⟨fun n s p i o => ⟨rfl, ?_⟩, by decide, by decide, by decide, by decide⟩
  simp [confirmation_prompted]

/-! Claims about the video renderer's timing -/

/-- C2: for every processed-track list of length `n`, the duration of the
concatenated video equals
`intro + n * (pause + snippet) + outro` (each per-track block being the
pre-roll pause clip, the `snippet - answer` music clip and the `answer`
answer clip), and the attached audio is trimmed to
`min(audio length, video length)`, hence never exceeds the video duration. -/
theorem c2_timing_identity (tracks_info : List Track)
    (snippet_duration pause_duration intro_duration outro_duration
      answer_duration audio_len : ℚ) :
    final_video_duration tracks_info snippet_duration pause_duration
        intro_duration outro_duration answer_duration =
      intro_duration +
        (tracks_info.length : ℚ) * (pause_duration + snippet_duration) +
        outro_duration ∧
    final_audio_duration audio_len
        (final_video_duration tracks_info snippet_duration pause_duration
          intro_duration outro_duration answer_duration) ≤
      final_video_duration tracks_info snippet_duration pause_duration
        intro_duration outro_duration answer_duration := by
  constructor
  · have key : ∀ ts : List Track,
        ((ts.map (fun _ => [pause_duration,
          snippet_duration - answer_duration, answer_duration])).flatten).sum =
          (ts.length : ℚ) * (pause_duration + snippet_duration) := by
      intro ts
      induction ts with
      | nil => simp
      | cons t ts ih =>
        simp only [List.map_cons, List.flatten_cons, List.sum_append, ih,
          List.length_cons, List.sum_cons, List.sum_nil, Nat.cast_add,
          Nat.cast_one]
        ring
    simp only [final_video_duration, clip_durations, List.sum_cons,
      List.sum_append, key, List.sum_nil]
    ring
  · exact min_le_right _ _

/-! Helper lemmas about the audio assembly loop -/

/-- The processed-track list collected by the loop is the success-filtered
input, in order. -/
theorem assembleAux_processed (intro pause : Nat) :
    ∀ (i : Nat) (l : List (Track × TrackOutcome)),
      (assembleAux intro pause i l).2 =
        (l.filter (fun p => p.2.isOk)).map Prod.fst := by
  intro i l
  induction l generalizing i with
  | nil => simp [assembleAux]
  | cons x xs ih =>
    obtain ⟨t, o⟩ := x
    cases ho : o.isOk <;>
      simp [assembleAux, ho, List.filter_cons, ih]

/-- The snippets among the emitted segments are exactly the successful tracks,
in order. -/
theorem assembleAux_snippets (intro pause : Nat) :
    ∀ (i : Nat) (l : List (Track × TrackOutcome)),
      (assembleAux intro pause i l).1.filterMap Seg.snippetTrack =
        (l.filter (fun p => p.2.isOk)).map Prod.fst := by
  intro i l
  induction l generalizing i with
  | nil => simp [assembleAux]
  | cons x xs ih =>
    obtain ⟨t, o⟩ := x
    cases ho : o.isOk
    · simp [assembleAux, ho, List.filter_cons, ih]
    · by_cases hi : i = 0 <;>
        simp [assembleAux, ho, hi, List.filter_cons, ih, Seg.snippetTrack]

/-- The silences among the emitted segments: one pause silence per successful
track, plus the intro silence iff the loop index can still be 0 and the first
track succeeds. -/
theorem assembleAux_silences (intro pause : Nat) :
    ∀ (i : Nat) (l : List (Track × TrackOutcome)),
      (assembleAux intro pause i l).1.countP Seg.isSilence =
        (l.filter (fun p => p.2.isOk)).length +
          (if i = 0 ∧ firstOk l = true then 1 else 0) := by
  intro i l
  induction l generalizing i with
  | nil => simp [assembleAux, firstOk]
  | cons x xs ih =>
    obtain ⟨t, o⟩ := x
    cases ho : o.isOk
    · simp [assembleAux, ho, List.filter_cons, ih, firstOk]
    · by_cases hi : i = 0 <;>
        simp [assembleAux, ho, hi, List.filter_cons, ih, firstOk,
          Seg.isSilence, List.countP_cons]

/-- If the loop emitted no segment, it also recorded no track. -/
theorem assembleAux_empty (intro pause : Nat) :
    ∀ (i : Nat) (l : List (Track × TrackOutcome)),
      (assembleAux intro pause i l).1 = [] →
      assembleAux intro pause i l = ([], []) := by
  intro i l
  induction l generalizing i with
  | nil => intro _; rfl
  | cons x xs ih =>
    obtain ⟨t, o⟩ := x
    intro h
    cases ho : o.isOk
    · simp only [assembleAux, ho, Bool.false_eq_true, if_false] at h ⊢
      exact ih (i + 1) h
    · simp [assembleAux, ho] at h

/-- The empty-segments special case of `create_blind_test_audio` returns what
the loop produced anyway, so the wrapper equals the loop. -/
theorem create_eq_assemble (tracks_info : List (Track × TrackOutcome))
    (snippet_duration pause_duration intro_duration : Nat) :
    create_blind_test_audio tracks_info snippet_duration pause_duration
        intro_duration =
      assembleAux intro_duration pause_duration 0 tracks_info := by
  unfold create_blind_test_audio
  by_cases h : (assembleAux intro_duration pause_duration 0 tracks_info).1 = []
  · rw [if_pos h]
    exact (assembleAux_empty intro_duration pause_duration 0 tracks_info h).symm
  · rw [if_neg h]

/-- When the loop starts past index 0, no intro silence can be emitted: every
segment is a pause silence or a snippet. -/
theorem assembleAux_no_intro (intro pause : Nat) :
    ∀ (i : Nat) (l : List (Track × TrackOutcome)), i ≠ 0 →
      ∀ s ∈ (assembleAux intro pause i l).1,
        s = Seg.silence (pause * 1000) ∨ ∃ u, s = Seg.snippet u := by
  intro i l
  induction l generalizing i with
  | nil => intro _ s hs; simp [assembleAux] at hs
  | cons x xs ih =>
    obtain ⟨t, o⟩ := x
    intro hi s hs
    cases ho : o.isOk
    · simp only [assembleAux, ho, Bool.false_eq_true, if_false] at hs
      exact ih (i + 1) (Nat.succ_ne_zero i) s hs
    · simp only [assembleAux, ho, if_true, if_neg hi, List.nil_append,
        List.mem_cons] at hs
      rcases hs with h | h | h
      · exact Or.inl h
      · exact Or.inr ⟨t, h⟩
      · exact ih (i + 1) (Nat.succ_ne_zero i) s h

/-- When the loop starts past index 0 and some track succeeds, the first
emitted segment is the pause silence of the first success. -/
theorem assembleAux_head (intro pause : Nat) :
    ∀ (i : Nat) (l : List (Track × TrackOutcome)), i ≠ 0 →
      (l.filter (fun p => p.2.isOk)) ≠ [] →
      (assembleAux intro pause i l).1.head? =
        some (Seg.silence (pause * 1000)) := by
  intro i l
  induction l generalizing i with
  | nil => intro _ hne; simp at hne
  | cons x xs ih =>
    obtain ⟨t, o⟩ := x
    intro hi hne
    cases ho : o.isOk
    · rw [List.filter_cons] at hne
      simp only [ho, Bool.false_eq_true, if_false] at hne
      simp only [assembleAux, ho, Bool.false_eq_true, if_false]
      exact ih (i + 1) (Nat.succ_ne_zero i) hne
    · simp [assembleAux, ho, if_neg hi]

/-! Claims about the audio assembler -/

/-- C1: `create_blind_test_audio` is order-preserving and failure-skipping:
the processed-track list is exactly the subsequence of input tracks that
succeeded, the emitted snippets are those same tracks in the same order, the
silences number one pause per success plus at most one intro (so failed
tracks contribute no segment at all), and in the concrete 3-track scenario
where track 2's download fails the output carries segments for tracks 1
and 3 only, in order, with a processed-track list of length 2. -/
theorem c1_order_preserving (tracks_info : List (Track × TrackOutcome))
    (snippet_duration pause_duration intro_duration : Nat) :
    ((create_blind_test_audio tracks_info snippet_duration pause_duration
        intro_duration).2 =
      (tracks_info.filter (fun p => p.2.isOk)).map Prod.fst ∧
    (create_blind_test_audio tracks_info snippet_duration pause_duration
        intro_duration).1.filterMap Seg.snippetTrack =
      (tracks_info.filter (fun p => p.2.isOk)).map Prod.fst ∧
    (create_blind_test_audio tracks_info snippet_duration pause_duration
        intro_duration).1.countP Seg.isSilence =
      (tracks_info.filter (fun p => p.2.isOk)).length +
        (if firstOk tracks_info = true then 1 else 0)) ∧
    create_blind_test_audio
        [(sampleTrackA, .ok), (sampleTrackB, .downloadFail), (sampleTrackC, .ok)]
        snippet_duration pause_duration intro_duration =
      ([Seg.silence (intro_duration * 1000), Seg.silence (pause_duration * 1000),
        Seg.snippet sampleTrackA, Seg.silence (pause_duration * 1000),
        Seg.snippet sampleTrackC],
       [sampleTrackA, sampleTrackC]) := by
  refine ⟨⟨?_, ?_, ?_⟩, ?_⟩
  · rw [create_eq_assemble]
    exact assembleAux_processed intro_duration pause_duration 0 tracks_info
  · rw [create_eq_assemble]
    exact assembleAux_snippets intro_duration pause_duration 0 tracks_info
  · rw [create_eq_assemble]
    rw [assembleAux_silences intro_duration pause_duration 0 tracks_info]
    simp
  · rw [create_eq_assemble]
    simp [assembleAux, TrackOutcome.isOk]

/-- C10: the intro silence is emitted iff the first input track succeeds: on
success the output opens with intro silence, pause silence and the first
track's snippet; if the first track fails, every emitted silence is a pause
silence (no intro silence at all) and, when a later track succeeds, the
output begins with that track's pause silence. -/
theorem c10_intro_iff_first_ok (t : Track) (o : TrackOutcome)
    (rest : List (Track × TrackOutcome))
    (snippet_duration pause_duration intro_duration : Nat) :
    (o.isOk = true →
      ∃ tail, (create_blind_test_audio ((t, o) :: rest) snippet_duration
          pause_duration intro_duration).1 =
        Seg.silence (intro_duration * 1000) ::
          Seg.silence (pause_duration * 1000) :: Seg.snippet t :: tail) ∧
    (o.isOk = false →
      (∀ s ∈ (create_blind_test_audio ((t, o) :: rest) snippet_duration
          pause_duration intro_duration).1,
        s = Seg.silence (pause_duration * 1000) ∨ ∃ u, s = Seg.snippet u) ∧
      ((rest.filter (fun p => p.2.isOk)) ≠ [] →
        (create_blind_test_audio ((t, o) :: rest) snippet_duration
            pause_duration intro_duration).1.head? =
          some (Seg.silence (pause_duration * 1000)))) := by
  constructor
  · intro ho
    refine ⟨(assembleAux intro_duration pause_duration 1 rest).1, ?_⟩
    rw [create_eq_assemble]
    simp [assembleAux, ho]
  · intro ho
    rw [create_eq_assemble]
    have hstep : (assembleAux intro_duration pause_duration 0 ((t, o) :: rest)).1 =
        (assembleAux intro_duration pause_duration 1 rest).1 := by
      simp [assembleAux, ho]
    constructor
    · intro s hs
      rw [hstep] at hs
      exact assembleAux_no_intro intro_duration pause_duration 1 rest
        Nat.one_ne_zero s hs
    · intro hne
      rw [hstep]
      exact assembleAux_head intro_duration pause_duration 1 rest
        Nat.one_ne_zero hne

/-- C10 witness: both branches at concrete inputs — a succeeding first track
opens with the intro silence; a failing first track followed by a success
yields an output headed by a pause silence, with no intro silence. -/
theorem c10_intro_iff_first_ok_witness :
    (∃ tail, (create_blind_test_audio [(sampleTrackA, .ok)] 10 2 1).1 =
      Seg.silence (1 * 1000) :: Seg.silence (2 * 1000) ::
        Seg.snippet sampleTrackA :: tail) ∧
    (∀ s ∈ (create_blind_test_audio
        [(sampleTrackA, .downloadFail), (sampleTrackB, .ok)] 10 2 1).1,
      s = Seg.silence (2 * 1000) ∨ ∃ u, s = Seg.snippet u) ∧
    (create_blind_test_audio
        [(sampleTrackA, .downloadFail), (sampleTrackB, .ok)] 10 2 1).1.head? =
      some (Seg.silence (2 * 1000)) :=
  ⟨(c10_intro_iff_first_ok sampleTrackA .ok [] 10 2 1).1 rfl,
    ((c10_intro_iff_first_ok sampleTrackA .downloadFail [(sampleTrackB, .ok)]
      10 2 1).2 rfl).1,
    ((c10_intro_iff_first_ok sampleTrackA .downloadFail [(sampleTrackB, .ok)]
      10 2 1).2 rfl).2 (by decide)⟩

/-! Helper lemmas about the upload retry loop -/

/-- A retriable failure below the retry cap performs exactly one backoff sleep,
with exponent `retry + 1`, and continues the loop. -/
theorem uploadLoop_retriable_step (c : ChunkOutcome) (rest : List ChunkOutcome)
    (retry : Nat) (sleeps : List Nat) (hc : retriableFailure c = true)
    (hcap : ¬ MAX_RETRIES < retry + 1) :
    uploadLoop (c :: rest) retry sleeps =
      uploadLoop rest (retry + 1) (sleeps ++ [retry + 1]) := by
  match c with
  | .ok _ => simp [retriableFailure] at hc
  | .progress => simp [retriableFailure] at hc
  | .raiseHttp status =>
    have hmem : status ∈ RETRIABLE_STATUS_CODES := by
      simpa [retriableFailure] using hc
    simp [uploadLoop, hmem, hcap]
  | .raiseExc e =>
    have hexc : isRetriableException e = true := by
      simpa [retriableFailure] using hc
    simp [uploadLoop, hexc, hcap]

/-- A retriable failure at the retry cap breaks the loop into the terminal
failed state, with no further sleep and no exception. -/
theorem uploadLoop_retriable_break (c : ChunkOutcome) (rest : List ChunkOutcome)
    (retry : Nat) (sleeps : List Nat) (hc : retriableFailure c = true)
    (hcap : MAX_RETRIES < retry + 1) :
    uploadLoop (c :: rest) retry sleeps = ⟨.failedMaxRetries, sleeps⟩ := by
  match c with
  | .ok _ => simp [retriableFailure] at hc
  | .progress => simp [retriableFailure] at hc
  | .raiseHttp status =>
    have hmem : status ∈ RETRIABLE_STATUS_CODES := by
      simpa [retriableFailure] using hc
    simp [uploadLoop, hmem, hcap]
  | .raiseExc e =>
    have hexc : isRetriableException e = true := by
      simpa [retriableFailure] using hc
    simp [uploadLoop, hexc, hcap]

/-- A nonempty all-retriable outcome stream long enough to push the counter
past `MAX_RETRIES` drives the loop into the terminal failed state. -/
theorem uploadLoop_all_retriable :
    ∀ (es : List ChunkOutcome) (retry : Nat) (sleeps : List Nat),
      (∀ e ∈ es, retriableFailure e = true) → es ≠ [] →
      MAX_RETRIES < retry + es.length →
      (uploadLoop es retry sleeps).result = .failedMaxRetries := by
  intro es
  induction es with
  | nil => intro _ _ _ hne _; exact absurd rfl hne
  | cons c rest ih =>
    intro retry sleeps hall hne hgt
    have hc := hall c (List.mem_cons_self c rest)
    by_cases hcap : MAX_RETRIES < retry + 1
    · rw [uploadLoop_retriable_break c rest retry sleeps hc hcap]
    · rw [uploadLoop_retriable_step c rest retry sleeps hc hcap]
      have hrest : rest ≠ [] := by
        intro h
        rw [h] at hgt
        simp at hgt
        omega
      refine ih (retry + 1) (sleeps ++ [retry + 1])
        (fun e he => hall e (List.mem_cons_of_mem c he)) hrest ?_
      simp only [List.length_cons] at hgt
      omega

/-! Claims about the upload client -/

/-- C4: every retriable failure (retriable exception kind or retriable HTTP
status) triggers one backoff sleep of `random() * 2 ^ attempt` seconds with
`attempt` starting at 1: three retriable failures followed by success
complete the upload after exactly the three sleeps with exponents 1, 2, 3;
and `MAX_RETRIES + 1` consecutive retriable failures terminate the upload in
the failed state — no exception is raised (the result is the break state,
not a propagated error). -/
theorem c4_upload_retry (e1 e2 e3 : ChunkOutcome)
    (h1 : retriableFailure e1 = true) (h2 : retriableFailure e2 = true)
    (h3 : retriableFailure e3 = true) :
    (∀ (c : ChunkOutcome) (rest : List ChunkOutcome) (retry : Nat)
        (sleeps : List Nat), retriableFailure c = true →
      retry + 1 ≤ MAX_RETRIES →
      uploadLoop (c :: rest) retry sleeps =
        uploadLoop rest (retry + 1) (sleeps ++ [retry + 1])) ∧
    resumable_upload [e1, e2, e3, .ok true] =
      ⟨.done true, [1, 2, 3]⟩ ∧
    ∀ es : List ChunkOutcome, es.length = MAX_RETRIES + 1 →
      (∀ e ∈ es, retriableFailure e = true) →
      (resumable_upload es).result = .failedMaxRetries := by
  refine ⟨fun c rest retry sleeps hc hcap =>
    uploadLoop_retriable_step c rest retry sleeps hc (by omega), ?_, ?_⟩
  · unfold resumable_upload
    rw [uploadLoop_retriable_step e1 _ 0 [] h1 (by decide),
      uploadLoop_retriable_step e2 _ 1 _ h2 (by decide),
      uploadLoop_retriable_step e3 _ 2 _ h3 (by decide)]
    simp [uploadLoop]
  · intro es hlen hall
    unfold resumable_upload
    refine uploadLoop_all_retriable es 0 [] hall ?_ ?_
    · intro h
      rw [h] at hlen
      simp [MAX_RETRIES] at hlen
    · rw [hlen]
      simp [MAX_RETRIES]

/-- C4 witness: three retriable HTTP 500 failures then success yield exactly
the sleeps with exponents 1, 2, 3; eleven consecutive retriable connection
errors yield the terminal failed state. -/
theorem c4_upload_retry_witness :
    uploadLoop [ChunkOutcome.raiseExc .badStatusLine] 0 [] =
      uploadLoop [] 1 ([] ++ [1]) ∧
    resumable_upload [.raiseHttp 500, .raiseHttp 500, .raiseHttp 500, .ok true] =
      ⟨.done true, [1, 2, 3]⟩ ∧
    (resumable_upload (List.replicate 11 (.raiseExc .ioError))).result =
      .failedMaxRetries :=
  ⟨(c4_upload_retry (.raiseHttp 500) (.raiseHttp 500) (.raiseHttp 500)
      (by decide) (by decide) (by decide)).1 (.raiseExc .badStatusLine) [] 0 []
      (by decide) (by decide),
    (c4_upload_retry (.raiseHttp 500) (.raiseHttp 500) (.raiseHttp 500)
      (by decide) (by decide) (by decide)).2.1,
    (c4_upload_retry (.raiseHttp 500) (.raiseHttp 500) (.raiseHttp 500)
      (by decide) (by decide) (by decide)).2.2
      (List.replicate 11 (.raiseExc .ioError)) (by decide) (by decide)⟩

/-- C7 counterexample: a non-retriable upload error does propagate out of the
upload client immediately (no retry, no backoff sleep), but the overall run
does not abort: `main` wraps the upload step in `try/except Exception`
(src/blind_test_generator.py lines 117-133), logs the failure and still
returns `True`. -/
theorem c7_counterexample :
    (resumable_upload [.raiseExc (.other "ValueError")]).result =
      .raisedExc (.other "ValueError") ∧
    (resumable_upload [.raiseExc (.other "ValueError")]).sleeps = [] ∧
    main_upload_step [.raiseExc (.other "ValueError")] =
      (true, .raisedExc (.other "ValueError")) := by
  refine ⟨rfl, rfl, rfl⟩

/-- C7 amended: every upload error that is neither a retriable exception kind
nor a retriable HTTP status makes the upload client propagate the error
immediately — the remaining chunk stream is never consumed and no backoff
sleep happens — but the orchestrator catches the propagated error, logs the
upload failure, and still reports overall success: the run is not aborted. -/
theorem c7_nonretriable_propagates (status : Nat) (e : PyExc)
    (rest : List ChunkOutcome) (sleeps : List Nat) (retry : Nat) :
    (status ∉ RETRIABLE_STATUS_CODES →
      uploadLoop (.raiseHttp status :: rest) retry sleeps =
        ⟨.raisedHttp status, sleeps⟩) ∧
    (isRetriableException e = false →
      uploadLoop (.raiseExc e :: rest) retry sleeps =
        ⟨.raisedExc e, sleeps⟩ ∧
      (main_upload_step (.raiseExc e :: rest)).1 = true) := by
  constructor
  · intro hmem
    simp [uploadLoop, hmem]
  · intro hexc
    refine ⟨by simp [uploadLoop, hexc], rfl⟩

/-- C7 witness: a 404 `HttpError` and a `ValueError`-like exception both
propagate at once with no sleep, and `main` still returns `True`. -/
theorem c7_nonretriable_propagates_witness :
    uploadLoop [ChunkOutcome.raiseHttp 404] 0 [] = ⟨.raisedHttp 404, []⟩ ∧
    uploadLoop [ChunkOutcome.raiseExc (.other "ValueError")] 0 [] =
      ⟨.raisedExc (.other "ValueError"), []⟩ ∧
    (main_upload_step [ChunkOutcome.raiseExc (.other "ValueError")]).1 = true :=
  ⟨(c7_nonretriable_propagates 404 (.other "ValueError") [] [] 0).1 (by decide),
    ((c7_nonretriable_propagates 404 (.other "ValueError") [] [] 0).2 rfl).1,
    ((c7_nonretriable_propagates 404 (.other "ValueError") [] [] 0).2 rfl).2⟩

/-! Claims about snippet extraction -/

/-- C5 counterexample: a 5-second source with requested duration 15 is in the
short branch (5 is not above 15 + 20), so the offset is 0 — but the slice
`audio[0:15000]` of a 5000 ms source is only 5000 ms long, not the
`duration` = 15 seconds the claim asserts are extracted. -/
theorem c5_counterexample :
    chooseStart 5000 15 (1 / 2) = 0 ∧
    snippet_len_ms 5000 15 (1 / 2) = 5000 ∧
    (5000 : Nat) ≠ 15 * 1000 := by
  have hs : chooseStart 5000 15 (1 / 2) = 0 := by
    simp only [chooseStart]
    rw [if_neg (by norm_num)]
  refine ⟨hs, ?_, by decide⟩
  simp only [snippet_len_ms, sliceLen, hs]
  norm_num [pyInt]

/-- C5 amended: for every source longer than `duration + 20` seconds the
chosen start offset lies in `[10, length - duration - 10]` and exactly
`duration` seconds are extracted; for every shorter source the offset is 0
and `min(duration, source length)` seconds are extracted (exactly `duration`
whenever the source is at least `duration` seconds long). -/
theorem c5_snippet_extraction (len_ms duration : Nat) (r : ℚ)
    (hr0 : 0 ≤ r) (hr1 : r ≤ 1) :
    ((duration : ℚ) + 20 < (len_ms : ℚ) / 1000 →
      10 ≤ chooseStart len_ms duration r ∧
      chooseStart len_ms duration r ≤ (len_ms : ℚ) / 1000 - duration - 10 ∧
      snippet_len_ms len_ms duration r = duration * 1000) ∧
    (¬ ((duration : ℚ) + 20 < (len_ms : ℚ) / 1000) →
      chooseStart len_ms duration r = 0 ∧
      snippet_len_ms len_ms duration r = min (duration * 1000) len_ms) := by
  constructor
  · intro hlong
    have hs_eq : chooseStart len_ms duration r =
        10 + r * ((len_ms : ℚ) / 1000 - duration - 10 - 10) := by
      simp only [chooseStart, uniform]
      rw [if_pos hlong]
    have hgap : (0 : ℚ) ≤ (len_ms : ℚ) / 1000 - duration - 10 - 10 := by
      linarith
    have h10 : 10 ≤ chooseStart len_ms duration r := by
      rw [hs_eq]
      nlinarith
    have hhi : chooseStart len_ms duration r ≤ (len_ms : ℚ) / 1000 - duration - 10 := by
      rw [hs_eq]
      nlinarith
    refine ⟨h10, hhi, ?_⟩
    have hq : (len_ms : ℚ) / 1000 * 1000 = (len_ms : ℚ) := by
      ring
    have hupper : chooseStart len_ms duration r * 1000 +
        (duration : ℚ) * 1000 + 10000 ≤ (len_ms : ℚ) := by
      have h := mul_le_mul_of_nonneg_right hhi (show (0:ℚ) ≤ 1000 by norm_num)
      have hexp : ((len_ms : ℚ) / 1000 - duration - 10) * 1000 =
          (len_ms : ℚ) - duration * 1000 - 10000 := by
        ring
      rw [hexp] at h
      linarith
    have hnn : (0 : ℚ) ≤ chooseStart len_ms duration r * 1000 := by
      nlinarith
    have hpy1 : pyInt (chooseStart len_ms duration r * 1000) =
        ⌊chooseStart len_ms duration r * 1000⌋ := by
      simp only [pyInt]
      rw [if_pos hnn]
    have hpy2 : pyInt ((chooseStart len_ms duration r + (duration : ℚ)) * 1000) =
        ⌊chooseStart len_ms duration r * 1000⌋ + (duration * 1000 : ℕ) := by
      have hsplit : (chooseStart len_ms duration r + (duration : ℚ)) * 1000 =
          chooseStart len_ms duration r * 1000 + ((duration * 1000 : ℕ) : ℚ) := by
        push_cast
        ring
      simp only [pyInt]
      rw [if_pos (by rw [hsplit]; positivity), hsplit, Int.floor_add_nat]
    have hfl0 : (0 : ℤ) ≤ ⌊chooseStart len_ms duration r * 1000⌋ :=
      Int.le_floor.mpr (by push_cast; linarith)
    have hfl_up : ⌊chooseStart len_ms duration r * 1000⌋ ≤
        (len_ms : ℤ) - (duration * 1000 : ℕ) - 10000 := by
      have hle : chooseStart len_ms duration r * 1000 ≤
          (((len_ms : ℤ) - (duration * 1000 : ℕ) - 10000 : ℤ) : ℚ) := by
        push_cast
        linarith
      calc ⌊chooseStart len_ms duration r * 1000⌋ ≤
            ⌊(((len_ms : ℤ) - (duration * 1000 : ℕ) - 10000 : ℤ) : ℚ)⌋ :=
          Int.floor_le_floor hle
        _ = (len_ms : ℤ) - (duration * 1000 : ℕ) - 10000 := Int.floor_intCast _
    simp only [snippet_len_ms, sliceLen]
    rw [hpy1, hpy2]
    omega
  · intro hshort
    have hs_eq : chooseStart len_ms duration r = 0 := by
      simp only [chooseStart]
      rw [if_neg hshort]
    refine ⟨hs_eq, ?_⟩
    have hpy1 : pyInt (chooseStart len_ms duration r * 1000) = 0 := by
      rw [hs_eq]
      norm_num [pyInt]
    have hpy2 : pyInt ((chooseStart len_ms duration r + (duration : ℚ)) * 1000) =
        (duration * 1000 : ℕ) := by
      rw [hs_eq]
      have hsplit : ((0 : ℚ) + (duration : ℚ)) * 1000 = ((duration * 1000 : ℕ) : ℚ) := by
        push_cast
        ring
      simp only [pyInt]
      rw [if_pos (by rw [hsplit]; positivity), hsplit, Int.floor_natCast]
    simp only [snippet_len_ms, sliceLen]
    rw [hpy1, hpy2]
    omega

/-- C5 witness: a 60-second source with duration 10 (long branch: the offset
is within `[10, 40]` and exactly 10 seconds are extracted), and a 25-second
source with duration 15 (short branch: offset 0, 15000 ms extracted). -/
theorem c5_snippet_extraction_witness :
    (10 ≤ chooseStart 60000 10 (1 / 2) ∧
      chooseStart 60000 10 (1 / 2) ≤ (60000 : ℚ) / 1000 - 10 - 10 ∧
      snippet_len_ms 60000 10 (1 / 2) = 10 * 1000) ∧
    (chooseStart 25000 15 (1 / 2) = 0 ∧
      snippet_len_ms 25000 15 (1 / 2) = min (15 * 1000) 25000) :=
  ⟨(c5_snippet_extraction 60000 10 (1 / 2) (by norm_num) (by norm_num)).1
      (by norm_num),
    (c5_snippet_extraction 25000 15 (1 / 2) (by norm_num) (by norm_num)).2
      (by norm_num)⟩

end BlindTest
